import Mathlib

/-!
Shallow embedding of the RasterLite2 raster driver
(`ogr/ogrsf_frmts/sqlite/rasterlite2.cpp`).

Conventions of the embedding:
* C `double` arithmetic is modelled over `ℚ` (the decimal literal `1e-5`
  becomes `1 / 100000`, `0.5` becomes `1 / 2`); `static_cast<int>` on a
  `double` becomes `truncQ` (truncation toward zero).
* Results of external calls (sqlite queries, librasterlite2 primitives) are
  inputs of the embedded functions, carried in environment records; a call
  that can fail is modelled as an `Option`.
* Mutable member state that the claims observe (`m_aosSubDatasets`,
  `m_nSectionId`, the overview list, band objects) is threaded explicitly.
* Metadata items that do not influence control flow or any claim
  (COMPRESSION/QUALITY on open, COVERAGE_TITLE, COVERAGE_ABSTRACT,
  SECTION_SUMMARY, the spatial-reference export) are not materialised.
-/

namespace RL2Spec

/-- `RL2_SAMPLE_*` enumeration of librasterlite2 as used by the driver. -/
inductive RL2SampleType
  | unknown | s1bit | s2bit | s4bit
  | i8 | u8 | i16 | u16 | i32 | u32 | f32 | f64
deriving DecidableEq

/-- `RL2_PIXEL_*` enumeration of librasterlite2 as used by the driver. -/
inductive RL2PixelType
  | monochrome | palette | grayscale | rgb | multiband | datagrid
deriving DecidableEq

/-- GDAL data types produced by the sample-type switch (plus `otherDT` for
data types the write path rejects, e.g. complex types). -/
inductive GDT
  | byte | int16 | uint16 | int32 | uint32 | float32 | float64 | otherDT
deriving DecidableEq

/-- `GDALGetDataTypeSizeBytes` for the types above. -/
def gdtSizeBytes : GDT → Nat
  | .byte => 1
  | .int16 => 2
  | .uint16 => 2
  | .int32 => 4
  | .uint32 => 4
  | .float32 => 4
  | .float64 => 8
  | .otherDT => 0

/-- The sample-type switch of `OpenRasterSubDataset` (rasterlite2.cpp lines
368-455): bit depth, GDAL data type and signedness per sample type;
`none` for `RL2_SAMPLE_UNKNOWN` (hard failure). -/
def sampleTypeInfo : RL2SampleType → Option (Nat × GDT × Bool)
  | .unknown => none
  | .s1bit => some (1, .byte, false)
  | .s2bit => some (2, .byte, false)
  | .s4bit => some (4, .byte, false)
  | .i8 => some (8, .byte, true)
  | .u8 => some (8, .byte, false)
  | .i16 => some (16, .int16, true)
  | .u16 => some (16, .uint16, false)
  | .i32 => some (32, .int32, true)
  | .u32 => some (32, .uint32, false)
  | .f32 => some (32, .float32, true)
  | .f64 => some (64, .float64, true)

/-- Truncation toward zero, the semantics of C `static_cast<int>(double)`. -/
def truncQ (x : ℚ) : Int := if 0 ≤ x then Int.floor x else Int.ceil x

/-- `INT_MAX` as a rational, for the `double` comparisons of the source. -/
def intMaxQ : ℚ := 2147483647

/-- An affine geotransform, six coefficients as in GDAL. -/
structure GeoT where
  gt0 : ℚ
  gt1 : ℚ
  gt2 : ℚ
  gt3 : ℚ
  gt4 : ℚ
  gt5 : ℚ
deriving DecidableEq

/-- A rectangular spatial extent. -/
structure Extent where
  minX : ℚ
  minY : ℚ
  maxX : ℚ
  maxY : ℚ
deriving DecidableEq

def extentZero : Extent := ⟨0, 0, 0, 0⟩

/-- `OGRSQLiteEscapeName`: double every double-quote character. -/
def OGRSQLiteEscapeName (s : String) : String :=
  s.foldl (fun acc c => if c = '\"' then (acc.push c).push c else acc.push c) ""

/-- `EscapeNameAndQuoteIfNeeded` (rasterlite2.cpp lines 43-48): quote the
name only when it contains a double quote or a colon. -/
def EscapeNameAndQuoteIfNeeded (s : String) : String :=
  if s.contains '\"' = false ∧ s.contains ':' = false then s
  else "\"" ++ OGRSQLiteEscapeName s ++ "\""

/-- One row of the `<coverage>_sections` query (`section_id`,
`section_name`); `none` models an SQL NULL column. -/
structure SectionRow where
  sectionId : Option Int
  sectionName : Option String
deriving DecidableEq

/-- A section row contributes only when both of its columns are non-NULL. -/
def validSectionRow (r : SectionRow) : Bool :=
  r.sectionId.isSome && r.sectionName.isSome

/-- The `SUBDATASET_<n>_NAME` / `SUBDATASET_<n>_DESC` pair added for one
section (rasterlite2.cpp lines 205-220). -/
def sectionSubEntries (filename covName : String) (sid : Int) (sname : String)
    (idx : Nat) : List (String × String) :=
  [ ("SUBDATASET_" ++ toString idx ++ "_NAME",
     "RASTERLITE2:" ++ EscapeNameAndQuoteIfNeeded filename ++ ":" ++
       EscapeNameAndQuoteIfNeeded covName ++ ":" ++ toString sid ++ ":" ++
       EscapeNameAndQuoteIfNeeded sname),
    ("SUBDATASET_" ++ toString idx ++ "_DESC",
     "Coverage " ++ covName ++ ", section " ++ sname ++ " / " ++
       toString sid) ]

/-- Body of the loop over section rows (rasterlite2.cpp lines 196-228).
The accumulator is (sub-dataset list, `m_nSectionId`, `bSingleSection`);
`multi` is the loop-invariant test `nRowCount2 > 1`. -/
def sectionScanStep (filename covName : String) (multi : Bool)
    (acc : List (String × String) × Int × Bool) (row : SectionRow) :
    List (String × String) × Int × Bool :=
  match row.sectionId, row.sectionName with
  | some sid, some sname =>
    if multi then
      (acc.1 ++ sectionSubEntries filename covName sid sname
          (acc.1.length / 2 + 1),
       acc.2)
    else (acc.1, sid, true)
  | _, _ => acc

/-- The section enumeration of `OpenRasterSubDataset` when no section id was
given (rasterlite2.cpp lines 177-231): `rows? = none` models a failed
`sqlite3_get_table` call (the scan is silently skipped). -/
def sectionScan (filename covName : String) (rows? : Option (List SectionRow))
    (initId : Int) : List (String × String) × Int × Bool :=
  match rows? with
  | none => ([], initId, false)
  | some rows =>
    rows.foldl (sectionScanStep filename covName (decide (1 < rows.length)))
      ([], initId, false)

/-! ### No-data resolution (rasterlite2.cpp lines 539-676, 1082-1091) -/

/-- Coverage type triple returned by `rl2_get_coverage_type`. -/
structure CovType where
  sampleType : RL2SampleType
  pixelType : RL2PixelType
  nBands : Nat
deriving DecidableEq

/-- The coverage's default no-data pixel, as observable through
`rl2_get_pixel_type` and the per-sample-type accessors.  `typeOk` models
`rl2_get_pixel_type` returning `RL2_OK`; `sampleAt i` is the value the
band-indexed accessors return for band `i` (the single-valued accessors
read index 0). -/
structure NoDataPixel where
  sampleType : RL2SampleType
  pixelType : RL2PixelType
  nBands : Nat
  typeOk : Bool
  sampleAt : Nat → ℚ

/-- The per-band scalar extraction switch (rasterlite2.cpp lines 556-640):
`RL2_SAMPLE_UINT8`/`RL2_SAMPLE_UINT16` use the band-indexed accessor, the
other known types a single-valued accessor; the `default` case leaves the
value 0. -/
def noDataSampleValue (st : RL2SampleType) (p : NoDataPixel) (i : Nat) : ℚ :=
  match st with
  | .unknown => 0
  | .u8 => p.sampleAt i
  | .u16 => p.sampleAt i
  | _ => p.sampleAt 0

/-- The no-data vector recovered at open time: non-empty only when the
pixel's sample type, pixel type and band count all equal the coverage's
own (rasterlite2.cpp lines 541-648). -/
def fetchNoDataValues (cov : CovType) (nd : Option NoDataPixel) : List ℚ :=
  match nd with
  | none => []
  | some p =>
    if p.typeOk = true ∧ p.sampleType = cov.sampleType ∧
        p.pixelType = cov.pixelType ∧ p.nBands = cov.nBands then
      (List.range cov.nBands).map (noDataSampleValue cov.sampleType p)
    else []

/-- The `NODATA_VALUES` dataset metadata item (rasterlite2.cpp lines
653-663), kept as the list of values it space-joins. -/
def nodataValuesItem (vals : List ℚ) (nBands : Nat) : Option (List ℚ) :=
  if vals.length = nBands ∧ 1 < nBands then some vals else none

/-- Per-band statistics surfaced as `STATISTICS_*` metadata. -/
structure BandStats where
  statMin : ℚ
  statMax : ℚ
  statMean : ℚ
  statStdDev : ℚ
deriving DecidableEq

/-- Color interpretation assigned by the band constructor;
`redPlus k` stands for `GCI_RedBand + k`. -/
inductive ColorInterp
  | undefinedCI | grayIndex | paletteIndex | redPlus (k : Nat)
deriving DecidableEq

/-- The observable state of one `RL2RasterBand`. -/
structure BandState where
  bandIdx : Nat
  dataType : GDT
  blockXSize : Int
  blockYSize : Int
  colorInterp : ColorInterp
  hasNoData : Bool
  noDataValue : ℚ
  nbitsItem : Option (String × Nat)
  signedByteItem : Bool
  stats : Option BandStats
deriving DecidableEq

/-- The `RL2RasterBand` constructor (rasterlite2.cpp lines 926-972). -/
def mkRL2Band (bandIdx : Nat) (pixelType : RL2PixelType) (dt : GDT)
    (nBits : Nat) (promote : Bool) (signed : Bool)
    (blockXSize blockYSize : Int) (hasNoData : Bool) (noDataValue : ℚ) :
    BandState :=
  { bandIdx
    dataType := dt
    blockXSize
    blockYSize
    colorInterp :=
      if pixelType = .monochrome ∨ pixelType = .grayscale then .grayIndex
      else if pixelType = .palette then .paletteIndex
      else if pixelType = .rgb then .redPlus (bandIdx - 1)
      else .undefinedCI
    hasNoData
    noDataValue
    nbitsItem :=
      if nBits % 8 ≠ 0 then
        some ((if nBits = 1 ∧ promote = true then "SOURCE_NBITS" else "NBITS"),
              nBits)
      else none
    signedByteItem := decide (nBits = 8 ∧ signed = true)
    stats := none }

/-- The `SetBand` loop of `OpenRasterSubDataset` (rasterlite2.cpp lines
665-676): one band per coverage band; a scalar no-data is attached only
when exactly one value was recovered and the coverage has exactly one
band. -/
def mkBands (cov : CovType) (dt : GDT) (nBits : Nat) (promote : Bool)
    (signed : Bool) (blockXSize blockYSize : Int) (vals : List ℚ) :
    List BandState :=
  (List.range cov.nBands).map (fun i =>
    mkRL2Band (i + 1) cov.pixelType dt nBits promote signed
      blockXSize blockYSize
      (decide (vals.length = 1 ∧ cov.nBands = 1))
      (if vals.length = 1 ∧ cov.nBands = 1 then vals.headD 0 else 0))

/-- `RL2RasterBand::GetNoDataValue` (rasterlite2.cpp lines 1082-1091):
the driver's scalar when `m_bHasNoData`, else the PAM fallback. -/
def getNoDataValue (b : BandState) (pam : Option ℚ) : Option ℚ :=
  if b.hasNoData = true then some b.noDataValue else pam

/-- The statistics-fetch loop (rasterlite2.cpp lines 679-713): statistics
are attached only when no explicit multi-section context is active
(`m_nSectionId < 0 || bSingleSection`), the statistics handle resolved,
the band is not a promoted 1-bit band, and the per-band fetch succeeded. -/
def assignStats (sid : Int) (single : Bool) (statsAvailable : Bool)
    (nBits : Nat) (promote : Bool) (lookup : Nat → Option BandStats)
    (bands : List BandState) : List BandState :=
  if (sid < 0 ∨ single = true) ∧ statsAvailable = true then
    bands.map (fun b =>
      match (if nBits = 1 ∧ promote = true then none
             else lookup (b.bandIdx - 1)) with
      | none => b
      | some s => { b with stats := some s })
  else bands

/-! ### Overview datasets (rasterlite2.cpp lines 874-920) -/

/-- The observable state of one overview dataset: its resolutions
(`m_adfGeoTransform[1]` is `xRes`, `m_adfGeoTransform[5]` is `-yRes`) and
its recomputed raster dimensions. -/
structure OvrDS where
  xRes : ℚ
  yRes : ℚ
  w : Int
  h : Int
deriving DecidableEq

/-- The parent-dataset fields `CreateRL2OverviewDatasetIfNeeded` reads. -/
structure BaseGeom where
  gt0 : ℚ
  gt1 : ℚ
  gt3 : ℚ
  gt5 : ℚ
  w : Int
  h : Int
deriving DecidableEq

/-- `OGRSQLiteDataSource::CreateRL2OverviewDatasetIfNeeded` (rasterlite2.cpp
lines 874-920).  The duplicated `nW ≤ 1 ∨ nW ≤ 1` test reproduces the
source's `poOvrDS->nRasterXSize <= 1 || poOvrDS->nRasterXSize <= 1`
verbatim (the second disjunct tests the X size again, not the Y size). -/
def createRL2OverviewDatasetIfNeeded (showAll : Bool) (base : BaseGeom)
    (ovrs : List OvrDS) (dfXRes dfYRes : ℚ) : List OvrDS :=
  if |dfXRes - base.gt1| < 1 / 100000 * base.gt1 then ovrs
  else if ∃ o ∈ ovrs, |dfXRes - o.xRes| < 1 / 100000 * o.xRes then ovrs
  else
    let dfMinX := base.gt0
    let dfMaxX := dfMinX + base.gt1 * (base.w : ℚ)
    let dfMaxY := base.gt3
    let dfMinY := dfMaxY + base.gt5 * (base.h : ℚ)
    let nW := truncQ (1 / 2 + (dfMaxX - dfMinX) / dfXRes)
    let nH := truncQ (1 / 2 + (dfMaxY - dfMinY) / dfYRes)
    if nW ≤ 1 ∨ nW ≤ 1 ∨ (nW < 64 ∧ nH < 64 ∧ showAll = false) then ovrs
    else ovrs ++ [⟨dfXRes, dfYRes, nW, nH⟩]

/-- A sequence of `CreateRL2OverviewDatasetIfNeeded` calls, one per
candidate `(xRes, yRes)` pair, in order. -/
def applyCandidates (showAll : Bool) (base : BaseGeom) (init : List OvrDS)
    (cands : List (ℚ × ℚ)) : List OvrDS :=
  cands.foldl
    (fun acc c => createRL2OverviewDatasetIfNeeded showAll base acc c.1 c.2)
    init

/-- One row of the `<coverage>_levels` / `<coverage>_section_levels` query:
up to four `(x_resolution, y_resolution)` pairs (full, half, quarter,
eighth); `none` models a NULL pair. -/
structure LevelRow where
  r1 : Option (ℚ × ℚ)
  r2 : Option (ℚ × ℚ)
  r4 : Option (ℚ × ℚ)
  r8 : Option (ℚ × ℚ)
deriving DecidableEq

/-- The candidate resolutions in the order the loop of rasterlite2.cpp
lines 826-857 visits them. -/
def levelCandidates (rows : List LevelRow) : List (ℚ × ℚ) :=
  (rows.map (fun r => [r.r1, r.r2, r.r4, r.r8].filterMap id)).flatten

/-! ### Opening a raster sub-dataset (rasterlite2.cpp lines 145-866) -/

/-- The environment of one `OpenRasterSubDataset` call: the parsed
connection identifier and the results of every external call the function
makes.  `initialSectionId` is `m_nSectionId` after parsing (`-1` when the
identifier carries no section field). -/
structure OpenEnv where
  filename : String
  covName : String
  initialSectionId : Int
  /-- `rl2_create_coverage_from_dbms` returned a non-NULL handle. -/
  coverageOk : Bool
  /-- Rows of the `<coverage>_sections` query; `none` models SQL failure. -/
  sectionRows : Option (List SectionRow)
  /-- `rl2_resolve_base_resolution_from_dbms` by section id. -/
  sectionResolve : Int → Option (ℚ × ℚ)
  /-- `rl2_resolve_full_section_from_dbms`: extent and unsigned dimensions. -/
  sectionFull : Int → Option (Extent × Nat × Nat)
  /-- `rl2_get_coverage_resolution`. -/
  covXRes : ℚ
  covYRes : ℚ
  /-- The `raster_coverages` extent row when present with no NULL column. -/
  covExtent : Option Extent
  /-- `rl2_get_coverage_type`. -/
  sampleType : RL2SampleType
  pixelType : RL2PixelType
  nBandsCov : Nat
  /-- Open option `1BIT_AS_8BIT` (`CPLFetchBool` default true). -/
  promoteOpt : Bool
  /-- `rl2_get_coverage_tile_size`. -/
  tileWidth : Nat
  tileHeight : Nat
  /-- `rl2_get_coverage_no_data`. -/
  noData : Option NoDataPixel
  /-- `rl2_create_raster_statistics_from_dbms` returned non-NULL. -/
  statsAvailable : Bool
  /-- `rl2_get_band_statistics` per 0-based band. -/
  bandStatsOk : Nat → Option BandStats
  /-- Coverage policy `mixedResolutions`. -/
  mixedResolutions : Bool
  /-- Rows of the levels query, in `pyramid_level` order. -/
  levelRows : List LevelRow
  /-- Config option `RL2_SHOW_ALL_PYRAMID_LEVELS`. -/
  showAllPyramids : Bool

/-- The observable state of a successfully opened dataset. -/
structure DSState where
  sectionId : Int
  singleSection : Bool
  rasterXSize : Int
  rasterYSize : Int
  gt : GeoT
  promote : Bool
  nBits : Nat
  dataType : GDT
  signedSample : Bool
  blockXSize : Int
  blockYSize : Int
  nodataItem : Option (List ℚ)
  bands : List BandState
  overviews : List OvrDS
deriving DecidableEq

/-- The section scan as `OpenRasterSubDataset` performs it: only when the
parsed identifier carried no section (`m_nSectionId < 0`). -/
def scanOf (env : OpenEnv) : List (String × String) × Int × Bool :=
  if env.initialSectionId < 0 then
    sectionScan env.filename env.covName env.sectionRows env.initialSectionId
  else ([], env.initialSectionId, false)

/-- Result of the extent-and-resolution phase. -/
inductive GeomResult
  | fail
  | ok (ext : Extent) (xres yres : ℚ) (w h : Int)
deriving DecidableEq

/-- The whole-coverage derived width `0.5 + (extent span)/resolution`
(rasterlite2.cpp line 311). -/
def covDfWidth (env : OpenEnv) : ℚ :=
  1 / 2 + ((env.covExtent.getD extentZero).maxX -
           (env.covExtent.getD extentZero).minX) / env.covXRes

/-- The whole-coverage derived height (rasterlite2.cpp line 312). -/
def covDfHeight (env : OpenEnv) : ℚ :=
  1 / 2 + ((env.covExtent.getD extentZero).maxY -
           (env.covExtent.getD extentZero).minY) / env.covYRes

/-- The extent-and-resolution phase (rasterlite2.cpp lines 244-322): by
section when a section id is in play, else from the coverage resolution
and the registry extent. -/
def resolveGeometry (env : OpenEnv) (sid : Int) : GeomResult :=
  if 0 ≤ sid then
    match env.sectionResolve sid with
    | none => .fail
    | some (xres, yres) =>
      match env.sectionFull sid with
      | none => .fail
      | some (ext, w, h) =>
        if w = 0 ∨ 2147483647 < w ∨ h = 0 ∨ 2147483647 < h then .fail
        else .ok ext xres yres (Int.ofNat w) (Int.ofNat h)
  else
    let ext := env.covExtent.getD extentZero
    if covDfWidth env ≤ 1 / 2 ∨ covDfHeight env ≤ 1 / 2 ∨
        intMaxQ < covDfWidth env ∨ intMaxQ < covDfHeight env then .fail
    else
      .ok ext env.covXRes env.covYRes (truncQ (covDfWidth env))
        (truncQ (covDfHeight env))

/-- `m_bPromote1BitAs8Bit`: set only for a 1-bit monochrome coverage, from
the open option (rasterlite2.cpp lines 376-382). -/
def promoteOf (env : OpenEnv) : Bool :=
  if env.sampleType = .s1bit ∧ env.pixelType = .monochrome then env.promoteOpt
  else false

/-- `OpenRasterSubDataset` after the geometry phase (rasterlite2.cpp lines
324-862): band count check, sample-type switch, tile-size check, no-data
resolution, band construction, statistics, overview construction. -/
def openAfterGeometry (env : OpenEnv)
    (scan : List (String × String) × Int × Bool) (ext : Extent) (w h : Int) :
    Option DSState :=
  let gt : GeoT :=
    ⟨ext.minX, (ext.maxX - ext.minX) / (w : ℚ), 0,
     ext.maxY, 0, -((ext.maxY - ext.minY) / (h : ℚ))⟩
  if ¬ (1 ≤ env.nBandsCov ∧ env.nBandsCov ≤ 65536) then none
  else
    match sampleTypeInfo env.sampleType with
    | none => none
    | some info =>
      if env.tileWidth = 0 ∨ env.tileHeight = 0 ∨
          2147483647 < env.tileWidth ∨ 2147483647 < env.tileHeight then none
      else
        let cov : CovType := ⟨env.sampleType, env.pixelType, env.nBandsCov⟩
        let vals := fetchNoDataValues cov env.noData
        let bands0 := mkBands cov info.2.1 info.1 (promoteOf env) info.2.2
          (Int.ofNat env.tileWidth) (Int.ofNat env.tileHeight) vals
        let bands := assignStats scan.2.1 scan.2.2 env.statsAvailable info.1
          (promoteOf env) env.bandStatsOk bands0
        let baseGeom : BaseGeom := ⟨gt.gt0, gt.gt1, gt.gt3, gt.gt5, w, h⟩
        let ovrs :=
          if env.mixedResolutions = false ∨ 0 ≤ scan.2.1 then
            applyCandidates env.showAllPyramids baseGeom []
              (levelCandidates env.levelRows)
          else []
        some
          { sectionId := scan.2.1
            singleSection := scan.2.2
            rasterXSize := w
            rasterYSize := h
            gt
            promote := promoteOf env
            nBits := info.1
            dataType := info.2.1
            signedSample := info.2.2
            blockXSize := Int.ofNat env.tileWidth
            blockYSize := Int.ofNat env.tileHeight
            nodataItem := nodataValuesItem vals env.nBandsCov
            bands
            overviews := ovrs }

/-- `OGRSQLiteDataSource::OpenRasterSubDataset` (rasterlite2.cpp lines
145-866): returns the sub-dataset listing accumulated in
`m_aosSubDatasets` (populated even when the open then fails) and the
opened dataset state, `none` on failure. -/
def openRasterSubDataset (env : OpenEnv) :
    List (String × String) × Option DSState :=
  if env.coverageOk = false then ([], none)
  else
    match resolveGeometry env (scanOf env).2.1 with
    | .fail => ((scanOf env).1, none)
    | .ok ext _ _ w h =>
      ((scanOf env).1, openAfterGeometry env (scanOf env) ext w h)

/-! ### Block reading (rasterlite2.cpp lines 1097-1241) -/

/-- The dataset/band context `RL2RasterBand::IReadBlock` reads.  The
pixel/sample types are the coverage's (`rl2_get_coverage_type` on the
parent's handle when this dataset is an overview); `dtSize` is
`GDALGetDataTypeSizeBytes(eDataType)`; `cachedSibling`/`cacheSlotOk`
model `TryGetLockedBlockRef`/`GetLockedBlockRef` for the sibling bands. -/
structure BlockEnv where
  pixelType : RL2PixelType
  sampleType : RL2SampleType
  promote : Bool
  hasParent : Bool
  nBands : Nat
  nBand : Nat
  blockXSize : Nat
  blockYSize : Nat
  dtSize : Nat
  cachedSibling : Nat → Bool
  cacheSlotOk : Nat → Bool

/-- `nBlockXSize * nBlockYSize * nDTSize * nBands`, the byte count the
fetched buffer must have (rasterlite2.cpp lines 1178-1181). -/
def expectedBytesAllBands (e : BlockEnv) : Nat :=
  e.blockXSize * e.blockYSize * e.dtSize * e.nBands

/-- The `GDALCopyWords` de-interleaving call: copy `count` words of
`dtSize` bytes for 1-based band `band` out of a band-interleaved buffer. -/
def stridedBandCopy (buffer : List Nat) (band dtSize nBands count : Nat) :
    List Nat :=
  ((List.range count).map (fun j =>
    (List.range dtSize).map (fun k =>
      buffer.getD ((band - 1) * dtSize + j * dtSize * nBands + k) 0))).flatten

/-- Result of a block read: `fail` models `CE_Failure` with nothing copied;
`ok` carries the bytes written to the caller's block and the opportunistic
sibling-band cache fills `(band, bytes)`. -/
inductive BlockResult
  | fail
  | ok (dst : List Nat) (siblingFills : List (Nat × List Nat))
deriving DecidableEq

/-- The bytes written to the caller's block (rasterlite2.cpp lines
1190-1206): the 0/1 re-collapse path for un-promoted 1-bit monochrome on
an overview dataset (`GetParentDS() != NULL`), else the strided
single-band copy via `GDALCopyWords`. -/
def blockDst (e : BlockEnv) (buffer : List Nat) : List Nat :=
  if e.pixelType = .monochrome ∧ e.sampleType = .s1bit ∧
      e.promote = false ∧ e.hasParent = true then
    buffer.map (fun b => if 127 < b then 1 else 0)
  else
    stridedBandCopy buffer e.nBand e.dtSize e.nBands
      (e.blockXSize * e.blockYSize)

/-- The opportunistic sibling-band cache fills (rasterlite2.cpp lines
1208-1236): skipped for already-cached blocks and silently skipped when
no cache slot could be acquired. -/
def blockSibs (e : BlockEnv) (buffer : List Nat) : List (Nat × List Nat) :=
  if 1 < e.nBands then
    ((List.range e.nBands).map (· + 1)).filterMap (fun i =>
      if i = e.nBand then none
      else if e.cachedSibling i = true then none
      else if e.cacheSlotOk i = false then none
      else some (i, stridedBandCopy buffer i e.dtSize e.nBands
        (e.blockXSize * e.blockYSize)))
  else []

/-- `RL2RasterBand::IReadBlock` from the point where the storage fetch
primitive returned a buffer (rasterlite2.cpp lines 1178-1240): byte-count
validation, then the destination copy and the sibling cache fill. -/
def ireadBlockAfterFetch (e : BlockEnv) (buffer : List Nat) : BlockResult :=
  if buffer.length ≠ expectedBytesAllBands e then .fail
  else .ok (blockDst e buffer) (blockSibs e buffer)

/-- `IReadBlock` including the fetch outcome: a failed storage fetch
(`fetched = none`) is propagated as `CE_Failure` with no partial result. -/
def ireadBlock (e : BlockEnv) (fetched : Option (List Nat)) : BlockResult :=
  match fetched with
  | none => .fail
  | some buffer => ireadBlockAfterFetch e buffer

/-! ### CreateCopy (rasterlite2.cpp lines 1473-1831) -/

/-- The source dataset attributes `OGRSQLiteDriverCreateCopy` reads before
touching the target store. -/
structure SrcInfo where
  bandCount : Nat
  /-- `GetGeoTransform` returned `CE_None`. -/
  hasGeoTransform : Bool
  gt : GeoT
  dataType : GDT
  colorInterp1 : ColorInterp
  colorInterp2 : ColorInterp
  colorInterp3 : ColorInterp
deriving DecidableEq

/-- The `PIXEL_TYPE` creation-option values (`otherOpt`: an unrecognized
value, which leaves the default `GRAYSCALE`). -/
inductive PixelTypeOpt
  | grayscale | rgb | multiband | datagrid | otherOpt
deriving DecidableEq

/-- The `COMPRESS` creation-option values (`otherC`: an unrecognized value,
which leaves the default `NONE`). -/
inductive CompressOpt
  | noneC | deflate | lzma | png | ccittfax4 | jpeg | webp | charls
  | jpeg2000 | otherC
deriving DecidableEq

/-- `RL2_COMPRESSION_*` codes the write path can select. -/
inductive RL2Comp
  | compNone | compDeflate | compLzma | compPng | compCcittfax4 | compJpeg
  | compLossyWebp | compLosslessWebp | compCharls | compLossyJp2
  | compLosslessJp2
deriving DecidableEq

/-- The creation options `OGRSQLiteDriverCreateCopy` consults before
touching the target store. -/
structure CopyOptions where
  /-- `APPEND_SUBDATASET` option present. -/
  appendSubdataset : Bool
  coverage : Option String
  pixelTypeOpt : Option PixelTypeOpt
  compressOpt : Option CompressOpt
  qualityOpt : Option Int
  blockXSize : Nat
  blockYSize : Nat
deriving DecidableEq

/-- The `COMPRESS` switch (rasterlite2.cpp lines 1561-1593): compression
code and its default quality. -/
def compressFromOption (c : Option CompressOpt) : RL2Comp × Int :=
  match c with
  | some .noneC => (.compNone, 100)
  | some .deflate => (.compDeflate, 100)
  | some .lzma => (.compLzma, 100)
  | some .png => (.compPng, 100)
  | some .ccittfax4 => (.compCcittfax4, 100)
  | some .jpeg => (.compJpeg, 75)
  | some .webp => (.compLossyWebp, 75)
  | some .charls => (.compCharls, 100)
  | some .jpeg2000 => (.compLossyJp2, 20)
  | some .otherC => (.compNone, 100)
  | none => (.compNone, 100)

/-- The explicit `QUALITY` option (rasterlite2.cpp lines 1595-1603): it
overrides the quality, and quality 100 upgrades the lossy JPEG2000/WEBP
codes to their lossless variants. -/
def applyQualityOption (cq : RL2Comp × Int) (q? : Option Int) :
    RL2Comp × Int :=
  match q? with
  | none => cq
  | some q =>
    if q = 100 ∧ cq.1 = .compLossyJp2 then (.compLosslessJp2, q)
    else if q = 100 ∧ cq.1 = .compLossyWebp then (.compLosslessWebp, q)
    else (cq.1, q)

/-- Compression code and quality as derived from the `COMPRESS` and
`QUALITY` options together. -/
def computeCompression (c : Option CompressOpt) (q? : Option Int) :
    RL2Comp × Int :=
  applyQualityOption (compressFromOption c) q?

/-- The `PIXEL_TYPE` selection (rasterlite2.cpp lines 1512-1541): explicit
option, else inferred from band count, data type and color
interpretations; the initial default is `GRAYSCALE`. -/
def selectPixelType (src : SrcInfo) (o : Option PixelTypeOpt) :
    RL2PixelType :=
  match o with
  | some .grayscale => .grayscale
  | some .rgb => .rgb
  | some .multiband => .multiband
  | some .datagrid => .datagrid
  | some .otherOpt => .grayscale
  | none =>
    if src.bandCount = 3 ∧ (src.dataType = .byte ∨ src.dataType = .uint16) ∧
        src.colorInterp1 = .redPlus 0 ∧ src.colorInterp2 = .redPlus 1 ∧
        src.colorInterp3 = .redPlus 2 then .rgb
    else if 1 < src.bandCount ∧
        (src.dataType = .byte ∨ src.dataType = .uint16) then .multiband
    else if src.bandCount = 1 then .datagrid
    else .grayscale

/-- The sample-type selection of the write path (rasterlite2.cpp lines
1543-1559); `none` is the "Unsupported data type" hard failure. -/
def selectSampleType (dt : GDT) : Option RL2SampleType :=
  match dt with
  | .uint16 => some .u16
  | .int16 => some .i16
  | .uint32 => some .u32
  | .int32 => some .i32
  | .float32 => some .f32
  | .float64 => some .f64
  | .byte => some .u8
  | .otherDT => none

/-- Parameters fully determined before the target store is touched. -/
structure CopyParams where
  sampleType : RL2SampleType
  pixelType : RL2PixelType
  bandCount : Nat
  compression : RL2Comp
  quality : Int
  tileWidth : Nat
  tileHeight : Nat
deriving DecidableEq

/-- Marker for the first storage-touching step of `CreateCopy` (the
`Open`/`Create` call on the target datasource, rasterlite2.cpp lines
1615-1636). -/
inductive CopyStep
  | storeTouched
deriving DecidableEq

/-- `OGRSQLiteDriverCreateCopy` up to the point where the target store is
opened or created (rasterlite2.cpp lines 1480-1615): the pre-flight
checks in source order, then parameter derivation.  `([], none)` models
`return NULL` with the target store never touched. -/
def createCopy (src : SrcInfo) (opts : CopyOptions) :
    List CopyStep × Option CopyParams :=
  if src.bandCount = 0 ∨ 255 < src.bandCount then ([], none)
  else if src.hasGeoTransform = true ∧ (src.gt.gt2 ≠ 0 ∨ src.gt.gt4 ≠ 0) then
    ([], none)
  else if opts.appendSubdataset = true ∧ opts.coverage = none then ([], none)
  else
    let px := selectPixelType src opts.pixelTypeOpt
    match selectSampleType src.dataType with
    | none => ([], none)
    | some st =>
      let cq := computeCompression opts.compressOpt opts.qualityOpt
      ([.storeTouched],
       some
         { sampleType := st
           pixelType := px
           bandCount := src.bandCount
           compression := cq.1
           quality := cq.2
           tileWidth := opts.blockXSize
           tileHeight := opts.blockYSize })

/-! ## Helper lemmas -/

/-- The resolution-proximity test of `CreateRL2OverviewDatasetIfNeeded`:
candidate `cand` is within relative tolerance `1e-5` of the incumbent
resolution `incumbent` (the source's `fabs(a - b) < 1e-5 * b`). -/
def closeRes (incumbent cand : ℚ) : Prop :=
  |cand - incumbent| < 1 / 100000 * incumbent

instance (incumbent cand : ℚ) : Decidable (closeRes incumbent cand) := by
  unfold closeRes; infer_instance

/-- The resolution-separation invariant of the overview list: no retained
overview is close to the base resolution, and no later overview is close
to an earlier one. -/
def OvrResInvariant (base : BaseGeom) (l : List OvrDS) : Prop :=
  (∀ o ∈ l, ¬ closeRes base.gt1 o.xRes) ∧
  l.Pairwise (fun a b => ¬ closeRes a.xRes b.xRes)

theorem createOvr_invariant (showAll : Bool) (base : BaseGeom)
    (acc : List OvrDS) (x y : ℚ) (h : OvrResInvariant base acc) :
    OvrResInvariant base
      (createRL2OverviewDatasetIfNeeded showAll base acc x y) := by
  unfold createRL2OverviewDatasetIfNeeded
  by_cases h1 : |x - base.gt1| < 1 / 100000 * base.gt1
  · rw [if_pos h1]; exact h
  · rw [if_neg h1]
    by_cases h2 : ∃ o ∈ acc, |x - o.xRes| < 1 / 100000 * o.xRes
    · rw [if_pos h2]; exact h
    · rw [if_neg h2]
      dsimp only
      split
      · exact h
      · constructor
        · intro o ho
          rcases List.mem_append.1 ho with ho | ho
          · exact h.1 o ho
          · rcases List.mem_singleton.1 ho with rfl
            exact h1
        · refine List.pairwise_append.2 ⟨h.2, List.pairwise_singleton _ _,
            fun a ha b hb => ?_⟩
          rcases List.mem_singleton.1 hb with rfl
          exact fun hc => h2 ⟨a, ha, hc⟩

theorem applyCandidates_invariant (showAll : Bool) (base : BaseGeom)
    (cands : List (ℚ × ℚ)) (init : List OvrDS)
    (h : OvrResInvariant base init) :
    OvrResInvariant base (applyCandidates showAll base init cands) := by
  induction cands generalizing init with
  | nil => exact h
  | cons c cs ih =>
    exact ih _ (createOvr_invariant showAll base init c.1 c.2 h)

/-! ## Claims -/

/-- C5: after any sequence of `CreateRL2OverviewDatasetIfNeeded` calls
starting from the empty overview list of a freshly opened dataset, no
retained overview's x-resolution is within relative tolerance `1e-5` of
the base dataset's x-resolution (`m_adfGeoTransform[1]`), and no two
retained overviews are within that tolerance of each other (the later
one compared against the earlier incumbent, as the source does). -/
theorem C5_overview_dedup_invariant (showAll : Bool) (base : BaseGeom)
    (cands : List (ℚ × ℚ)) :
    (∀ o ∈ applyCandidates showAll base [] cands,
       ¬ closeRes base.gt1 o.xRes) ∧
    (applyCandidates showAll base [] cands).Pairwise
      (fun a b => ¬ closeRes a.xRes b.xRes) :=
  applyCandidates_invariant showAll base cands []
    ⟨fun o ho => absurd ho (List.not_mem_nil o), List.Pairwise.nil⟩

theorem applyCandidates_single_two :
    applyCandidates false ⟨0, 1, 0, -1, 1000, 1000⟩ [] [(2, 2)] =
      [⟨2, 2, 500, 500⟩] := by
  unfold applyCandidates
  simp only [List.foldl_cons, List.foldl_nil]
  unfold createRL2OverviewDatasetIfNeeded
  rw [if_neg (by norm_num), if_neg (by simp)]
  norm_num [truncQ]

/-- C5 witness: a concrete run retains the overview with x-resolution 2 for
a base of x-resolution 1, and that overview is indeed not close to the
base resolution. -/
theorem C5_overview_dedup_invariant_witness :
    (⟨2, 2, 500, 500⟩ : OvrDS) ∈
        applyCandidates false ⟨0, 1, 0, -1, 1000, 1000⟩ [] [(2, 2)] ∧
    ¬ closeRes (BaseGeom.mk 0 1 0 (-1) 1000 1000).gt1
        (OvrDS.mk 2 2 500 500).xRes :=
  ⟨by rw [applyCandidates_single_two]; exact List.mem_singleton.2 rfl,
   (C5_overview_dedup_invariant false ⟨0, 1, 0, -1, 1000, 1000⟩
       [(2, 2)]).1 ⟨2, 2, 500, 500⟩
     (by rw [applyCandidates_single_two]; exact List.mem_singleton.2 rfl)⟩

/-- C3: evaluation of `CreateRL2OverviewDatasetIfNeeded` at a candidate
whose recomputed overview height is 1 (and whose width is 100): the
source's duplicated `poOvrDS->nRasterXSize <= 1` test never checks the Y
size, so the height-1 overview is appended instead of being discarded as
the claim (and the intended check) requires. -/
theorem C3_height_one_appended :
    createRL2OverviewDatasetIfNeeded false ⟨0, 1, 0, -1, 6400, 64⟩ [] 64 64 =
      [⟨64, 64, 100, 1⟩] := by
  unfold createRL2OverviewDatasetIfNeeded
  rw [if_neg (by norm_num), if_neg (by simp)]
  norm_num [truncQ]

/-- C9: on the write path, the default quality (no explicit `QUALITY`
option) is 75 for `COMPRESS=JPEG` and `COMPRESS=WEBP`, 20 for
`COMPRESS=JPEG2000`, and 100 for every other (or absent, or
unrecognized) compression choice; and an explicit `QUALITY=100` combined
with the lossy WEBP / lossy JPEG2000 choice upgrades the compression
code to the lossless variant of that codec. -/
theorem C9_quality_defaults :
    (∀ c : Option CompressOpt,
       (computeCompression c none).2 =
         if c = some CompressOpt.jpeg ∨ c = some CompressOpt.webp then 75
         else if c = some CompressOpt.jpeg2000 then 20
         else 100) ∧
    computeCompression (some .webp) (some 100) = (.compLosslessWebp, 100) ∧
    computeCompression (some .jpeg2000) (some 100) =
      (.compLosslessJp2, 100) := by
  refine ⟨fun c => ?_, by decide, by decide⟩
  cases c with
  | none => decide
  | some v => cases v <;> decide

/-- C9 witness: the default-quality rule evaluated at `COMPRESS=JPEG`. -/
theorem C9_quality_defaults_witness :
    (computeCompression (some CompressOpt.jpeg) none).2 =
      if some CompressOpt.jpeg = some CompressOpt.jpeg ∨
          some CompressOpt.jpeg = some CompressOpt.webp then 75
      else if some CompressOpt.jpeg = some CompressOpt.jpeg2000 then 20
      else 100 :=
  C9_quality_defaults.1 (some CompressOpt.jpeg)

/-- C4: after the storage fetch primitive succeeds, a returned byte count
different from `blockWidth * blockHeight * bytesPerSample * bandCount`
makes `IReadBlock` fail with no bytes copied to the caller's block nor to
any sibling band's cache, and an exact match lets the read proceed. -/
theorem C4_byte_count_check (e : BlockEnv) (buffer : List Nat) :
    (buffer.length ≠ expectedBytesAllBands e →
       ireadBlockAfterFetch e buffer = .fail) ∧
    (buffer.length = expectedBytesAllBands e →
       ∃ dst sibs, ireadBlockAfterFetch e buffer = .ok dst sibs) := by
  constructor
  · intro h
    unfold ireadBlockAfterFetch
    rw [if_pos h]
  · intro h
    unfold ireadBlockAfterFetch
    rw [if_neg (fun hh => hh h)]
    exact ⟨_, _, rfl⟩

/-- A concrete block-read context: 1-bit monochrome coverage, promotion
off, single band, 1x1 block of 1-byte samples, on the base (parentless)
dataset. -/
def blockEnvBase : BlockEnv :=
  { pixelType := .monochrome
    sampleType := .s1bit
    promote := false
    hasParent := false
    nBands := 1
    nBand := 1
    blockXSize := 1
    blockYSize := 1
    dtSize := 1
    cachedSibling := fun _ => false
    cacheSlotOk := fun _ => true }

/-- The same context on an overview dataset (`GetParentDS() != NULL`). -/
def blockEnvOvr : BlockEnv := { blockEnvBase with hasParent := true }

/-- C4 witness: with one byte expected, a two-byte buffer fails and a
one-byte buffer proceeds. -/
theorem C4_byte_count_check_witness :
    ireadBlockAfterFetch blockEnvBase [0, 0] = .fail ∧
    ∃ dst sibs, ireadBlockAfterFetch blockEnvBase [7] = .ok dst sibs :=
  ⟨(C4_byte_count_check blockEnvBase [0, 0]).1 (by decide),
   (C4_byte_count_check blockEnvBase [7]).2 (by decide)⟩

/-- C2 counterexample: on the base (top-level, parentless) dataset of an
un-promoted 1-bit monochrome coverage, `IReadBlock` copies the storage
primitive's expanded byte 255 through to the caller unchanged — the
returned buffer holds 255, which is neither 0 nor 1.  The re-collapse
path requires `GetParentDS() != NULL`, i.e. it runs only on overview
datasets. -/
theorem C2_counterexample :
    ireadBlockAfterFetch blockEnvBase [255] = .ok [255] [] ∧
    ¬ ((255 : Nat) = 0 ∨ (255 : Nat) = 1) := by
  exact ⟨by decide, by decide⟩

/-- C2 (amended): for a 1-bit monochrome coverage read with the
promote-to-8-bit option off, every successful `IReadBlock` on an
*overview* dataset (one holding a parent back-reference) returns a buffer
in which every byte is exactly 0 or 1; on the base dataset the fetched
bytes are copied through unchanged. -/
theorem C2_overview_collapse (e : BlockEnv) (buffer dst : List Nat)
    (sibs : List (Nat × List Nat))
    (hpx : e.pixelType = .monochrome) (hs : e.sampleType = .s1bit)
    (hpr : e.promote = false) (hpar : e.hasParent = true)
    (h : ireadBlockAfterFetch e buffer = .ok dst sibs) :
    ∀ v ∈ dst, v = 0 ∨ v = 1 := by
  unfold ireadBlockAfterFetch at h
  by_cases hl : buffer.length ≠ expectedBytesAllBands e
  · rw [if_pos hl] at h
    exact BlockResult.noConfusion h
  · rw [if_neg hl] at h
    injection h with h1 h2
    subst h1
    intro v hv
    unfold blockDst at hv
    rw [if_pos ⟨hpx, hs, hpr, hpar⟩] at hv
    obtain ⟨b, -, rfl⟩ := List.mem_map.1 hv
    by_cases hb : 127 < b
    · right; rw [if_pos hb]
    · left; rw [if_neg hb]

/-- C2 witness: on a concrete overview read the byte 255 collapses to 1,
which is 0 or 1. -/
theorem C2_overview_collapse_witness : (1 : Nat) = 0 ∨ (1 : Nat) = 1 :=
  C2_overview_collapse blockEnvOvr [255] [1] [] rfl rfl rfl rfl (by decide)
    1 (by decide)

/-- C6: `CreateCopy` fails before the target store is opened or created
(no storage-touching step, no returned dataset) whenever the source band
count is 0 or exceeds 255, or the source has a geotransform with a
nonzero rotation/shear term, or `APPEND_SUBDATASET` is given without a
`COVERAGE` option. -/
theorem C6_createcopy_preflight (src : SrcInfo) (opts : CopyOptions)
    (h : (src.bandCount = 0 ∨ 255 < src.bandCount) ∨
         (src.hasGeoTransform = true ∧ (src.gt.gt2 ≠ 0 ∨ src.gt.gt4 ≠ 0)) ∨
         (opts.appendSubdataset = true ∧ opts.coverage = none)) :
    createCopy src opts = ([], none) := by
  unfold createCopy
  by_cases h1 : src.bandCount = 0 ∨ 255 < src.bandCount
  · rw [if_pos h1]
  · rw [if_neg h1]
    by_cases h2 : src.hasGeoTransform = true ∧
        (src.gt.gt2 ≠ 0 ∨ src.gt.gt4 ≠ 0)
    · rw [if_pos h2]
    · rw [if_neg h2]
      rcases h with h | h | h
      · exact absurd h h1
      · exact absurd h h2
      · rw [if_pos h]

/-- C6 witness: a single-band byte source with a sheared geotransform is
rejected with the store untouched. -/
theorem C6_createcopy_preflight_witness :
    createCopy
      ⟨1, true, ⟨0, 1, 1, 0, 0, -1⟩, .byte, .grayIndex, .grayIndex,
        .grayIndex⟩
      ⟨false, none, none, none, none, 512, 512⟩ = ([], none) :=
  C6_createcopy_preflight _ _ (Or.inr (Or.inl ⟨rfl, Or.inl (by decide)⟩))

/-! ### Section-scan lemmas -/

theorem sectionScanStep_multi_snd (f c : String)
    (acc : List (String × String) × Int × Bool) (row : SectionRow) :
    (sectionScanStep f c true acc row).2 = acc.2 := by
  unfold sectionScanStep
  rcases row with ⟨sid, sn⟩
  cases sid <;> cases sn <;> rfl

theorem scanFold_multi_snd (f c : String) (rows : List SectionRow)
    (acc : List (String × String) × Int × Bool) :
    (rows.foldl (sectionScanStep f c true) acc).2 = acc.2 := by
  induction rows generalizing acc with
  | nil => rfl
  | cons r rs ih => rw [List.foldl_cons, ih, sectionScanStep_multi_snd]

theorem sectionScanStep_multi_fst_length (f c : String)
    (acc : List (String × String) × Int × Bool) (row : SectionRow) :
    (sectionScanStep f c true acc row).1.length =
      acc.1.length + (if validSectionRow row then 2 else 0) := by
  unfold sectionScanStep validSectionRow
  rcases row with ⟨sid, sn⟩
  cases sid <;> cases sn <;> simp [sectionSubEntries]

theorem scanFold_multi_fst_length (f c : String) (rows : List SectionRow)
    (acc : List (String × String) × Int × Bool) :
    (rows.foldl (sectionScanStep f c true) acc).1.length =
      acc.1.length + 2 * (rows.filter validSectionRow).length := by
  induction rows generalizing acc with
  | nil => simp
  | cons r rs ih =>
    rw [List.foldl_cons, ih, sectionScanStep_multi_fst_length]
    by_cases hv : validSectionRow r
    · simp only [hv, if_true, List.filter_cons, List.length_cons]
      omega
    · simp only [hv, if_false, List.filter_cons]
      simp only [Bool.false_eq_true, if_false]
      omega

theorem sectionScan_some_multi (f c : String) (rows : List SectionRow)
    (initId : Int) (hm : 1 < rows.length) :
    (sectionScan f c (some rows) initId).1.length =
      2 * (rows.filter validSectionRow).length ∧
    (sectionScan f c (some rows) initId).2 = (initId, false) := by
  have e : sectionScan f c (some rows) initId =
      rows.foldl (sectionScanStep f c (decide (1 < rows.length)))
        ([], initId, false) := rfl
  rw [e, decide_eq_true hm]
  exact ⟨by rw [scanFold_multi_fst_length]; simp,
         by rw [scanFold_multi_snd]⟩

theorem sectionScan_single (f c : String) (i : Int) (nm : String)
    (initId : Int) :
    sectionScan f c (some [⟨some i, some nm⟩]) initId = ([], i, true) := by
  unfold sectionScan
  simp [sectionScanStep]

/-- Splitting a pair equality out of a second-component equality. -/
theorem prodSplit {α β : Type} (p : α × β) (b : β) (h : p.2 = b) :
    p = (p.1, b) := by
  rw [← h]

/-- Inversion of a successful `OpenRasterSubDataset`: the sub-dataset
listing is the section scan's, and the dataset state's fields are the
ones the function computes. -/
theorem openRasterSubDataset_some (env : OpenEnv)
    (subs : List (String × String)) (st : DSState)
    (h : openRasterSubDataset env = (subs, some st)) :
    subs = (scanOf env).1 ∧
    st.sectionId = (scanOf env).2.1 ∧
    st.singleSection = (scanOf env).2.2 ∧
    (∃ ext xr yr, resolveGeometry env (scanOf env).2.1 =
        GeomResult.ok ext xr yr st.rasterXSize st.rasterYSize) ∧
    (∃ info, sampleTypeInfo env.sampleType = some info ∧
        st.nBits = info.1 ∧ st.promote = promoteOf env ∧
        st.bands = assignStats (scanOf env).2.1 (scanOf env).2.2
          env.statsAvailable info.1 (promoteOf env) env.bandStatsOk
          (mkBands ⟨env.sampleType, env.pixelType, env.nBandsCov⟩ info.2.1
            info.1 (promoteOf env) info.2.2 (Int.ofNat env.tileWidth)
            (Int.ofNat env.tileHeight)
            (fetchNoDataValues
              ⟨env.sampleType, env.pixelType, env.nBandsCov⟩
              env.noData))) := by
  unfold openRasterSubDataset at h
  by_cases hc : env.coverageOk = false
  · rw [if_pos hc] at h
    injection h with h1 h2
    exact Option.noConfusion h2
  · rw [if_neg hc] at h
    revert h
    cases hg : resolveGeometry env (scanOf env).2.1 with
    | fail =>
      intro h
      injection h with h1 h2
      exact Option.noConfusion h2
    | ok ext xr yr w hh =>
      intro h
      injection h with h1 h2
      subst h1
      unfold openAfterGeometry at h2
      by_cases hb : ¬ (1 ≤ env.nBandsCov ∧ env.nBandsCov ≤ 65536)
      · rw [if_pos hb] at h2
        exact Option.noConfusion h2
      · rw [if_neg hb] at h2
        revert h2
        cases hi : sampleTypeInfo env.sampleType with
        | none =>
          intro h2
          exact Option.noConfusion h2
        | some info =>
          intro h2
          dsimp only at h2
          by_cases ht : env.tileWidth = 0 ∨ env.tileHeight = 0 ∨
              2147483647 < env.tileWidth ∨ 2147483647 < env.tileHeight
          · rw [if_pos ht] at h2
            exact Option.noConfusion h2
          · rw [if_neg ht] at h2
            have hst := Option.some.inj h2
            subst hst
            exact ⟨rfl, rfl, rfl, ⟨ext, xr, yr, rfl⟩,
                   ⟨info, rfl, rfl, rfl, rfl⟩⟩

/-- A helper for concrete runs: when every check of `OpenRasterSubDataset`
passes, the open succeeds and the sub-dataset listing is the scan's. -/
theorem open_proceeds (env : OpenEnv) (ext : Extent) (xr yr : ℚ)
    (w h : Int) (info : Nat × GDT × Bool)
    (hcov : env.coverageOk = true)
    (hgeom : resolveGeometry env (scanOf env).2.1 =
      GeomResult.ok ext xr yr w h)
    (hbands : 1 ≤ env.nBandsCov ∧ env.nBandsCov ≤ 65536)
    (hsample : sampleTypeInfo env.sampleType = some info)
    (htile : ¬ (env.tileWidth = 0 ∨ env.tileHeight = 0 ∨
        2147483647 < env.tileWidth ∨ 2147483647 < env.tileHeight)) :
    (openRasterSubDataset env).1 = (scanOf env).1 ∧
    (openRasterSubDataset env).2.isSome = true := by
  unfold openRasterSubDataset
  rw [if_neg (by simp [hcov]), hgeom]
  refine ⟨rfl, ?_⟩
  show (openAfterGeometry env (scanOf env) ext w h).isSome = true
  unfold openAfterGeometry
  dsimp only
  rw [if_neg (not_not_intro hbands), hsample]
  dsimp only
  rw [if_neg htile]
  rfl

/-- C1 (amended): for an open of a coverage identifier that names no
section, with the coverage resolvable: when the section table holds more
than one row, one NAME/DESC pair is listed per section row with non-NULL
id and name, no section is selected (`m_nSectionId` keeps its initial
negative value, the single-section flag stays false), and — contrary to
the original claim — resolution does not stop: the open proceeds with
whole-coverage geometry, and on success the opened dataset carries no
section and the whole-coverage raster dimensions.  When the table holds
exactly one (valid) row, that section is selected automatically and
flagged as single-section. -/
theorem C1_section_listing (env : OpenEnv) (rows : List SectionRow)
    (hcov : env.coverageOk = true)
    (hinit : env.initialSectionId < 0)
    (hrows : env.sectionRows = some rows) :
    (1 < rows.length →
       (scanOf env).1.length = 2 * (rows.filter validSectionRow).length ∧
       (scanOf env).2.1 = env.initialSectionId ∧
       (scanOf env).2.2 = false ∧
       (openRasterSubDataset env).1 = (scanOf env).1 ∧
       ∀ st, (openRasterSubDataset env).2 = some st →
         st.sectionId = env.initialSectionId ∧ st.singleSection = false ∧
         st.rasterXSize = truncQ (covDfWidth env) ∧
         st.rasterYSize = truncQ (covDfHeight env)) ∧
    (∀ i nm, rows = [⟨some i, some nm⟩] →
       (scanOf env).1 = [] ∧ (scanOf env).2.1 = i ∧
       (scanOf env).2.2 = true ∧
       ∀ st, (openRasterSubDataset env).2 = some st →
         st.sectionId = i ∧ st.singleSection = true) := by
  have hscan : scanOf env =
      sectionScan env.filename env.covName env.sectionRows
        env.initialSectionId := by
    unfold scanOf; rw [if_pos hinit]
  constructor
  · intro hm
    have hS := sectionScan_some_multi env.filename env.covName rows
      env.initialSectionId hm
    have h1 : (scanOf env).1.length =
        2 * (rows.filter validSectionRow).length := by
      rw [hscan, hrows]; exact hS.1
    have h2 : (scanOf env).2 = (env.initialSectionId, false) := by
      rw [hscan, hrows]; exact hS.2
    refine ⟨h1, by rw [h2], by rw [h2], ?_, ?_⟩
    · unfold openRasterSubDataset
      rw [if_neg (by simp [hcov])]
      cases resolveGeometry env (scanOf env).2.1 <;> rfl
    · intro st hst
      obtain ⟨-, hsid, hsingle, ⟨ext, xr, yr, hgeom⟩, -⟩ :=
        openRasterSubDataset_some env _ st (prodSplit _ _ hst)
      have hsid1 : (scanOf env).2.1 = env.initialSectionId := by rw [h2]
      have hsingle1 : (scanOf env).2.2 = false := by rw [h2]
      rw [hsid1] at hgeom
      unfold resolveGeometry at hgeom
      rw [if_neg (not_le.2 hinit)] at hgeom
      revert hgeom
      split
      · intro hgeom; exact GeomResult.noConfusion hgeom
      · intro hgeom
        injection hgeom with e1 e2 e3 e4 e5
        exact ⟨by rw [hsid, hsid1], by rw [hsingle, hsingle1],
               e4.symm, e5.symm⟩
  · intro i nm hr
    have h0 : scanOf env = ([], i, true) := by
      rw [hscan, hrows, hr, sectionScan_single]
    refine ⟨by rw [h0], by rw [h0], by rw [h0], ?_⟩
    intro st hst
    obtain ⟨-, hsid, hsingle, -, -⟩ :=
      openRasterSubDataset_some env _ st (prodSplit _ _ hst)
    rw [h0] at hsid hsingle
    exact ⟨hsid, hsingle⟩

/-- The section rows of the concrete two-section environment. -/
def rowsC1 : List SectionRow :=
  [⟨some 1, some "sec1"⟩, ⟨some 2, some "sec2"⟩]

/-- A concrete open environment: uniform-resolution single-band 8-bit
grayscale coverage, resolution 1, registry extent `(0,0)-(100,50)`,
no section named in the identifier, no section table. -/
def envBase : OpenEnv :=
  { filename := "db"
    covName := "cov"
    initialSectionId := -1
    coverageOk := true
    sectionRows := none
    sectionResolve := fun _ => none
    sectionFull := fun _ => none
    covXRes := 1
    covYRes := 1
    covExtent := some ⟨0, 0, 100, 50⟩
    sampleType := .u8
    pixelType := .grayscale
    nBandsCov := 1
    promoteOpt := true
    tileWidth := 256
    tileHeight := 256
    noData := none
    statsAvailable := false
    bandStatsOk := fun _ => none
    mixedResolutions := false
    levelRows := []
    showAllPyramids := false }

/-- `envBase` with a two-row section table. -/
def envC1 : OpenEnv := { envBase with sectionRows := some rowsC1 }

/-- `envBase` as a 1-bit monochrome coverage with storage statistics
available, promotion on (the default). -/
def envC10 : OpenEnv :=
  { envBase with
    sampleType := .s1bit
    pixelType := .monochrome
    statsAvailable := true
    bandStatsOk := fun _ => some ⟨0, 1, 1 / 2, 1 / 2⟩ }

theorem scanOf_envBase : scanOf envBase = ([], -1, false) := by
  unfold scanOf
  rw [if_pos (by decide)]
  rfl

theorem scanOf_envC10 : scanOf envC10 = ([], -1, false) := by
  unfold scanOf
  rw [if_pos (by decide)]
  rfl

theorem scanOf_envC1_snd : (scanOf envC1).2 = (-1, false) := by
  unfold scanOf
  rw [if_pos (by decide)]
  exact (sectionScan_some_multi envC1.filename envC1.covName rowsC1 (-1)
    (by decide)).2

/-- Whole-coverage geometry of the concrete environments: resolution 1 and
extent `(0,0)-(100,50)` give a 100 by 50 raster. -/
theorem resolveGeometry_cov_ok (env : OpenEnv)
    (hsid : (scanOf env).2.1 = -1)
    (hxr : env.covXRes = 1) (hyr : env.covYRes = 1)
    (hext : env.covExtent = some ⟨0, 0, 100, 50⟩) :
    resolveGeometry env (scanOf env).2.1 =
      GeomResult.ok ⟨0, 0, 100, 50⟩ 1 1 100 50 := by
  have hw : covDfWidth env = 201 / 2 := by
    unfold covDfWidth
    rw [hext, hxr]
    norm_num
  have hh : covDfHeight env = 101 / 2 := by
    unfold covDfHeight
    rw [hext, hyr]
    norm_num
  unfold resolveGeometry
  rw [if_neg (by rw [hsid]; decide)]
  rw [if_neg (by rw [hw, hh]; norm_num [intMaxQ])]
  rw [hext, hxr, hyr, hw, hh]
  norm_num [truncQ]

/-- C1 counterexample: a concrete open of a coverage whose section table
holds two sections: both are listed as sub-dataset candidates (four
NAME/DESC entries), yet the open still produces an opened dataset
(`isSome`) — resolution does not stop. -/
theorem C1_counterexample :
    (envC1.sectionRows.getD []).length = 2 ∧
    (openRasterSubDataset envC1).1.length = 4 ∧
    (openRasterSubDataset envC1).2.isSome = true := by
  have hgeom := resolveGeometry_cov_ok envC1 (by rw [scanOf_envC1_snd])
    rfl rfl rfl
  have hp := open_proceeds envC1 ⟨0, 0, 100, 50⟩ 1 1 100 50
    (8, .byte, false) rfl hgeom (by decide) rfl (by decide)
  refine ⟨rfl, ?_, hp.2⟩
  rw [hp.1]
  have hscan : scanOf envC1 =
      sectionScan envC1.filename envC1.covName (some rowsC1) (-1) := by
    unfold scanOf
    rw [if_pos (by decide)]
    rfl
  rw [hscan,
    (sectionScan_some_multi envC1.filename envC1.covName rowsC1 (-1)
      (by decide)).1]
  decide

/-- C1 witness: the amended listing theorem applied to the concrete
two-section environment. -/
theorem C1_section_listing_witness :
    (scanOf envC1).1.length = 2 * (rowsC1.filter validSectionRow).length ∧
    (scanOf envC1).2.2 = false :=
  ⟨((C1_section_listing envC1 rowsC1 rfl (by decide) rfl).1 (by decide)).1,
   ((C1_section_listing envC1 rowsC1 rfl (by decide) rfl).1
      (by decide)).2.2.1⟩

/-- C7: when opening a coverage with no section in play (the post-scan
section id is negative), the geometry phase fails exactly when one of the
derived values `0.5 + span/resolution` is at most 0.5 or exceeds
`INT_MAX`; on success the raster dimensions are the truncations of those
derived values; and a failed geometry phase makes the whole open fail. -/
theorem C7_cov_geometry (env : OpenEnv) (hsid : (scanOf env).2.1 < 0) :
    (resolveGeometry env (scanOf env).2.1 = .fail ↔
       ¬ (1 / 2 < covDfWidth env ∧ covDfWidth env ≤ intMaxQ ∧
          1 / 2 < covDfHeight env ∧ covDfHeight env ≤ intMaxQ)) ∧
    (∀ ext xr yr w h, resolveGeometry env (scanOf env).2.1 =
        GeomResult.ok ext xr yr w h →
       w = truncQ (covDfWidth env) ∧ h = truncQ (covDfHeight env)) ∧
    (resolveGeometry env (scanOf env).2.1 = .fail →
       (openRasterSubDataset env).2 = none) := by
  have hne : ¬ (0 ≤ (scanOf env).2.1) := not_le.2 hsid
  refine ⟨?_, ?_, ?_⟩
  · unfold resolveGeometry
    rw [if_neg hne]
    by_cases hcond : covDfWidth env ≤ 1 / 2 ∨ covDfHeight env ≤ 1 / 2 ∨
        intMaxQ < covDfWidth env ∨ intMaxQ < covDfHeight env
    · rw [if_pos hcond]
      refine ⟨fun _ hconj => ?_, fun _ => rfl⟩
      rcases hcond with hc | hc | hc | hc
      · exact absurd hconj.1 (not_lt.2 hc)
      · exact absurd hconj.2.2.1 (not_lt.2 hc)
      · exact absurd hconj.2.1 (not_le.2 hc)
      · exact absurd hconj.2.2.2 (not_le.2 hc)
    · rw [if_neg hcond]
      push_neg at hcond
      exact ⟨fun hx => GeomResult.noConfusion hx,
             fun hnc => absurd
               ⟨hcond.1, hcond.2.2.1, hcond.2.1, hcond.2.2.2⟩ hnc⟩
  · unfold resolveGeometry
    rw [if_neg hne]
    intro ext xr yr w h hok
    by_cases hcond : covDfWidth env ≤ 1 / 2 ∨ covDfHeight env ≤ 1 / 2 ∨
        intMaxQ < covDfWidth env ∨ intMaxQ < covDfHeight env
    · rw [if_pos hcond] at hok
      exact GeomResult.noConfusion hok
    · rw [if_neg hcond] at hok
      injection hok with e1 e2 e3 e4 e5
      exact ⟨e4.symm, e5.symm⟩
  · intro hfail
    unfold openRasterSubDataset
    by_cases hc : env.coverageOk = false
    · rw [if_pos hc]
    · rw [if_neg hc, hfail]

/-- C7 witness: for the concrete environment the derived dimensions are
100 and 50. -/
theorem C7_cov_geometry_witness :
    (100 : Int) = truncQ (covDfWidth envBase) ∧
    (50 : Int) = truncQ (covDfHeight envBase) :=
  (C7_cov_geometry envBase (by rw [scanOf_envBase]; decide)).2.1
    ⟨0, 0, 100, 50⟩ 1 1 100 50
    (resolveGeometry_cov_ok envBase (by rw [scanOf_envBase]) rfl rfl rfl)

/-- For a 1-bit band with promotion active, the statistics loop leaves
every band untouched. -/
theorem assignStats_promoted (sid : Int) (single sa : Bool)
    (lookup : Nat → Option BandStats) (bands : List BandState) :
    assignStats sid single sa 1 true lookup bands = bands := by
  unfold assignStats
  split
  · simp
  · rfl

/-- The band constructor never attaches statistics. -/
theorem mkBands_map_stats_none (cov : CovType) (dt : GDT) (nBits : Nat)
    (promote signed : Bool) (bx bh : Int) (vals : List ℚ) :
    (mkBands cov dt nBits promote signed bx bh vals).map BandState.stats =
      List.replicate
        (mkBands cov dt nBits promote signed bx bh vals).length none := by
  unfold mkBands
  simp only [List.map_map, List.length_map]
  have h1 : (BandState.stats ∘ fun i =>
      mkRL2Band (i + 1) cov.pixelType dt nBits promote signed bx bh
        (decide (vals.length = 1 ∧ cov.nBands = 1))
        (if vals.length = 1 ∧ cov.nBands = 1 then vals.headD 0 else 0)) =
      fun _ => (none : Option BandStats) := rfl
  rw [h1]
  simp [List.map_const']

/-- C10: for a dataset opened from a 1-bit coverage in promote-to-8-bit
mode (monochrome pixel type, `1BIT_AS_8BIT` on), no band of the opened
dataset carries any `STATISTICS_*` metadata, even when storage-level
statistics are available. -/
theorem C10_no_stats_when_promoted (env : OpenEnv)
    (subs : List (String × String)) (st : DSState)
    (h : openRasterSubDataset env = (subs, some st))
    (hs : env.sampleType = .s1bit) (hp : env.pixelType = .monochrome)
    (ho : env.promoteOpt = true) :
    st.bands.map BandState.stats = List.replicate st.bands.length none := by
  obtain ⟨-, -, -, -, info, hinfo, -, -, hbands⟩ :=
    openRasterSubDataset_some env subs st h
  rw [hs] at hinfo
  have hinfo2 : info = (1, GDT.byte, false) := (Option.some.inj hinfo).symm
  subst hinfo2
  have hpr : promoteOf env = true := by
    unfold promoteOf
    rw [if_pos ⟨hs, hp⟩]
    exact ho
  rw [hpr] at hbands
  rw [hbands, assignStats_promoted]
  exact mkBands_map_stats_none _ _ _ _ _ _ _ _

/-- A placeholder dataset state for `Option.getD`. -/
def dsDummy : DSState :=
  { sectionId := 0
    singleSection := false
    rasterXSize := 0
    rasterYSize := 0
    gt := ⟨0, 0, 0, 0, 0, 0⟩
    promote := false
    nBits := 0
    dataType := .byte
    signedSample := false
    blockXSize := 0
    blockYSize := 0
    nodataItem := none
    bands := []
    overviews := [] }

/-- C10 witness: the concrete promoted 1-bit monochrome open succeeds and
its bands carry no statistics. -/
theorem C10_no_stats_when_promoted_witness :
    ((openRasterSubDataset envC10).2.getD dsDummy).bands.map
        BandState.stats =
      List.replicate
        ((openRasterSubDataset envC10).2.getD dsDummy).bands.length
        none := by
  have hgeom := resolveGeometry_cov_ok envC10 (by rw [scanOf_envC10])
    rfl rfl rfl
  have hp := open_proceeds envC10 ⟨0, 0, 100, 50⟩ 1 1 100 50
    (1, .byte, false) rfl hgeom (by decide) rfl (by decide)
  obtain ⟨st0, hst0⟩ := Option.isSome_iff_exists.1 hp.2
  have h := C10_no_stats_when_promoted envC10
    (openRasterSubDataset envC10).1 st0 (prodSplit _ _ hst0) rfl rfl rfl
  rw [hst0]
  simpa using h

/-- C8: the coverage's stored default no-data pixel is honored only when
its sample type, pixel type, and band count all equal the coverage's own;
a mismatch is silently ignored (no vector recovered, no `NODATA_VALUES`
item, no per-band scalar).  On a match with band count 1 the single band
exposes the recovered value as a scalar no-data and no `NODATA_VALUES`
item appears; on a match with band count above 1 the dataset exposes the
full vector as the `NODATA_VALUES` item and no band exposes a per-band
scalar. -/
theorem C8_nodata_matching (cov : CovType) (p : NoDataPixel) (dt : GDT)
    (nBits : Nat) (promote signed : Bool) (bx bh : Int) :
    (¬ (p.typeOk = true ∧ p.sampleType = cov.sampleType ∧
          p.pixelType = cov.pixelType ∧ p.nBands = cov.nBands) →
       fetchNoDataValues cov (some p) = [] ∧
       nodataValuesItem (fetchNoDataValues cov (some p)) cov.nBands =
         none ∧
       ∀ b ∈ mkBands cov dt nBits promote signed bx bh
           (fetchNoDataValues cov (some p)),
         b.hasNoData = false ∧ getNoDataValue b none = none) ∧
    ((p.typeOk = true ∧ p.sampleType = cov.sampleType ∧
        p.pixelType = cov.pixelType ∧ p.nBands = cov.nBands) →
       (cov.nBands = 1 →
          fetchNoDataValues cov (some p) =
            [noDataSampleValue cov.sampleType p 0] ∧
          nodataValuesItem (fetchNoDataValues cov (some p)) cov.nBands =
            none ∧
          ∀ b ∈ mkBands cov dt nBits promote signed bx bh
              (fetchNoDataValues cov (some p)),
            b.hasNoData = true ∧
            getNoDataValue b none =
              some (noDataSampleValue cov.sampleType p 0)) ∧
       (1 < cov.nBands →
          (fetchNoDataValues cov (some p)).length = cov.nBands ∧
          nodataValuesItem (fetchNoDataValues cov (some p)) cov.nBands =
            some (fetchNoDataValues cov (some p)) ∧
          ∀ b ∈ mkBands cov dt nBits promote signed bx bh
              (fetchNoDataValues cov (some p)),
            b.hasNoData = false ∧ getNoDataValue b none = none)) := by
  constructor
  · intro hmis
    have hfetch : fetchNoDataValues cov (some p) = [] := by
      unfold fetchNoDataValues
      dsimp only
      rw [if_neg hmis]
    refine ⟨hfetch, ?_, ?_⟩
    · rw [hfetch]
      unfold nodataValuesItem
      rw [if_neg]
      rintro ⟨h1, h2⟩
      rw [← h1] at h2
      exact absurd h2 (by decide)
    · intro b hb
      rw [hfetch] at hb
      unfold mkBands at hb
      obtain ⟨i, -, rfl⟩ := List.mem_map.1 hb
      constructor
      · simp [mkRL2Band]
      · simp [getNoDataValue, mkRL2Band]
  · intro hmat
    constructor
    · intro h1
      have hfetch : fetchNoDataValues cov (some p) =
          [noDataSampleValue cov.sampleType p 0] := by
        unfold fetchNoDataValues
        dsimp only
        rw [if_pos hmat, h1]
        rfl
      refine ⟨hfetch, ?_, ?_⟩
      · unfold nodataValuesItem
        rw [if_neg]
        rintro ⟨-, hgt⟩
        rw [h1] at hgt
        exact absurd hgt (by decide)
      · intro b hb
        unfold mkBands at hb
        obtain ⟨i, -, rfl⟩ := List.mem_map.1 hb
        simp [mkRL2Band, getNoDataValue, hfetch, h1]
    · intro h1
      have hne : ¬ (cov.nBands = 1) := by omega
      have hlen : (fetchNoDataValues cov (some p)).length = cov.nBands := by
        unfold fetchNoDataValues
        dsimp only
        rw [if_pos hmat]
        simp
      refine ⟨hlen, ?_, ?_⟩
      · unfold nodataValuesItem
        rw [if_pos ⟨hlen, h1⟩]
      · intro b hb
        unfold mkBands at hb
        obtain ⟨i, -, rfl⟩ := List.mem_map.1 hb
        constructor
        · simp [mkRL2Band, hne]
        · simp [getNoDataValue, mkRL2Band, hne]

/-- A default no-data pixel whose band count does not match the target
coverage. -/
def pMismatch : NoDataPixel := ⟨.u8, .grayscale, 2, true, fun _ => 7⟩

/-- A default no-data pixel matching a single-band 8-bit grayscale
coverage. -/
def pMatch1 : NoDataPixel := ⟨.u8, .grayscale, 1, true, fun _ => 7⟩

/-- A default no-data pixel matching a three-band 8-bit multiband
coverage. -/
def pMatch3 : NoDataPixel := ⟨.u8, .multiband, 3, true, fun i => (i : ℚ)⟩

/-- A single-band 8-bit grayscale coverage type. -/
def covG1 : CovType := ⟨.u8, .grayscale, 1⟩

/-- A three-band 8-bit multiband coverage type. -/
def covM3 : CovType := ⟨.u8, .multiband, 3⟩

/-- C8 witness: the mismatching pixel is ignored, the matching single-band
pixel is recovered as a scalar, and the matching three-band pixel yields
the `NODATA_VALUES` vector item. -/
theorem C8_nodata_matching_witness :
    fetchNoDataValues covG1 (some pMismatch) = [] ∧
    fetchNoDataValues covG1 (some pMatch1) =
      [noDataSampleValue covG1.sampleType pMatch1 0] ∧
    nodataValuesItem (fetchNoDataValues covM3 (some pMatch3)) covM3.nBands =
      some (fetchNoDataValues covM3 (some pMatch3)) :=
  ⟨((C8_nodata_matching covG1 pMismatch .byte 8 false false 256 256).1
      (by decide)).1,
   (((C8_nodata_matching covG1 pMatch1 .byte 8 false false 256 256).2
      (by decide)).1 (by decide)).1,
   (((C8_nodata_matching covM3 pMatch3 .byte 8 false false 256 256).2
      (by decide)).2 (by decide)).2.1⟩

end RL2Spec
